import Mathlib

/-!
Verification of the vessim microgrid simulator against its natural-language
specification.  Power and energy quantities (Python `float`) are embedded as
rationals (`ℚ`); timestamps as natural numbers or strings, matching the
source.  Fallible Python code (raised exceptions) is embedded with `Except`.
-/

deriving instance DecidableEq for Except

namespace Vessim

/-! ## Storage (battery) -/

/-- Modelled from the spec: the class `SimpleBatteryModel`
(`simulator/simple_battery_model.py`) and the `SimpleBattery` storage of
`vessim/core/storage.py` are not present under `src/`; only their callers
are.  Spec 4.1: state of a battery with `capacity`, `charge_level`,
`min_soc`; `step_size` is the fixed per-step duration used when the caller
passes only a power. -/
structure SimpleBatteryModel where
  capacity : ℚ
  charge_level : ℚ
  min_soc : ℚ
  step_size : ℚ
deriving Repr, DecidableEq

/-- Modelled from the spec: Storage contract (spec 4.1), absent from `src/`:
`update(power, duration) -> excess` computes `delta_energy = power * duration`,
clamps the post-update `charge_level` to `[min_soc*capacity, capacity]`, sets
`charge_level` to the clamped value and returns
`excess = delta_energy - actual_delta_applied`.  Returns the excess together
with the updated battery state. -/
def SimpleBatteryModel.update (b : SimpleBatteryModel) (power duration : ℚ) :
    ℚ × SimpleBatteryModel :=
  (power * duration -
      (max (b.min_soc * b.capacity) (min (b.charge_level + power * duration) b.capacity)
        - b.charge_level),
   { b with
      charge_level :=
        max (b.min_soc * b.capacity) (min (b.charge_level + power * duration) b.capacity) })

/-- Modelled from the spec: the one-argument `SimpleBatteryModel.step(power)`
used by `VirtualEnergySystemModel.step`; applies `update` over the model's
per-step duration. -/
def SimpleBatteryModel.step (b : SimpleBatteryModel) (power : ℚ) : ℚ × SimpleBatteryModel :=
  b.update power b.step_size

/-- Modelled from the spec: `DefaultStoragePolicy` (`vessim/core/storage.py`,
not under `src/`); only its externally settable `grid_power` override is
needed here (set by the SiL collector). -/
structure DefaultStoragePolicy where
  grid_power : ℚ
deriving Repr, DecidableEq

/-! ## VirtualEnergySystemModel (`src/simulator/virtual_energy_system.py`) -/

/-- State of `VirtualEnergySystemModel` (`__init__`, lines 71-84; the Redis
and FastAPI handles are process plumbing and carry no model state). -/
structure VirtualEnergySystemModel where
  battery : SimpleBatteryModel
  battery_grid_charge : ℚ
  nodes_power_mode : List (Nat × String)
  consumption : ℚ
  solar : ℚ
  ci : ℚ
  grid_power : ℚ
deriving Repr, DecidableEq

/-- `VirtualEnergySystemModel.step` (lines 87-120): computes
`power_deficit = consumption - solar`; on a deficit discharges the battery
and draws `power_deficit + battery_power` from the grid if positive; on a
surplus charges the battery and feeds `battery_excess` back to the grid. -/
def VirtualEnergySystemModel.step (m : VirtualEnergySystemModel) : VirtualEnergySystemModel :=
  let power_deficit := m.consumption - m.solar
  if power_deficit > 0 then
    let r := m.battery.step (-power_deficit)
    let battery_power := r.1
    let remaining_deficit := power_deficit + battery_power
    if remaining_deficit > 0 then
      { m with battery := r.2, grid_power := remaining_deficit }
    else
      { m with battery := r.2, grid_power := 0 }
  else
    let excess_power := -power_deficit
    let r := m.battery.step excess_power
    let battery_excess := r.1
    if battery_excess > 0 then
      { m with battery := r.2, grid_power := -battery_excess }
    else
      { m with battery := r.2, grid_power := 0 }

/-! ## CarbonAgent (`src/simulator/carbon_controller.py`) -/

/-- State of `CarbonAgent` (lines 50-59). -/
structure CarbonAgent where
  carbon_conversion_factor : ℚ
  ci : ℚ
  intensity_input : ℚ
deriving Repr, DecidableEq

/-- `CarbonAgent.__init__` (lines 50-59): selects a conversion factor for the
supported units and raises `ValueError` otherwise. -/
def CarbonAgent.init (unit : String) : Except String CarbonAgent :=
  if unit = "g_per_kWh" then
    .ok { carbon_conversion_factor := 1, ci := 0, intensity_input := 0 }
  else if unit = "lb_per_MWh" then
    .ok { carbon_conversion_factor := 45359237 / 100000000, ci := 0, intensity_input := 0 }
  else
    .error (unit ++ " is not supported by vessim")

/-- `CarbonAgent.step` (lines 61-65):
`self.ci = abs(self.intensity_input * self.carbon_conversion_factor)`. -/
def CarbonAgent.step (a : CarbonAgent) : CarbonAgent :=
  { a with ci := |a.intensity_input * a.carbon_conversion_factor| }

/-! ## Carbon-aware controller scenario (`src/examples/controller_example.py`) -/

/-- Result dictionary of `cacu_scenario` (lines 91-132). -/
structure CacuState where
  battery_min_soc : ℚ
  grid_power : ℚ
  nodes_power_mode : List (String × String)
deriving Repr, DecidableEq

/-- `cacu_scenario` (lines 91-132): threshold rules of the carbon-aware
control unit.  `time` is Python `int`, `%` on a positive modulus is `Int.emod`. -/
def cacu_scenario (time : Int) (battery_soc : ℚ) (ci : ℚ) (node_names : List String) :
    CacuState :=
  let time_of_day := time % (3600 * 24)
  { battery_min_soc :=
      if 11 * 3600 ≤ time_of_day ∧ time_of_day < 24 * 3600 ∧ 6 / 10 ≤ battery_soc then 6 / 10
      else 3 / 10,
    grid_power := if ci ≤ 200 ∧ battery_soc < 6 / 10 then 20 else 0,
    nodes_power_mode :=
      node_names.map fun node_name =>
        (node_name,
          if ci ≤ 200 ∨ 8 / 10 < battery_soc then "high performance"
          else if 250 ≤ ci ∧ battery_soc < 6 / 10 then "power-saving"
          else "normal") }

/-! ## TraceSimulator and CarbonApi (`src/vessim/core/simulator.py`) -/

/-- Time-indexed series: pairs of (timestamp, value), ascending by timestamp
as in the documented data layout. -/
abbrev Series := List (Nat × ℚ)

/-- A zone-keyed frame: the embedding of the pandas `DataFrame` columns. -/
abbrev Frame := List (String × Series)

/-- Attributes stored by `TraceSimulator.__init__` (lines 36-42): exactly
`self.actual` and `self.forecast`; no attribute named `data` is ever set. -/
structure TraceSimulator where
  actual : Frame
  forecast : Option Frame
deriving Repr, DecidableEq

/-- `TraceSimulator.zones` (lines 44-46): the column names of `actual`. -/
def TraceSimulator.zones (t : TraceSimulator) : List String :=
  t.actual.map (·.1)

/-- `pandas.Index.asof` on an ascending index: the last entry whose timestamp
is at or before `now`, if any. -/
def seriesAsof (s : Series) (now : Nat) : Option (Nat × ℚ) :=
  (s.filter fun p => p.1 ≤ now).getLast?

/-- `TraceSimulator.actual_at` (lines 48-69).  Zone resolution follows the
source (`ValueError` when no zone is given and several exist, or when the
zone is unknown).  Line 67 then evaluates `self.data.index.asof(dt)`, but
`__init__` only ever sets `self.actual` and `self.forecast`, so the Python
attribute lookup `self.data` raises `AttributeError` (which the surrounding
`except KeyError` does not catch). -/
def TraceSimulator.actual_at (t : TraceSimulator) (dt : Nat) (zone : Option String) :
    Except String ℚ := do
  let z ← match zone with
    | some z => pure z
    | none =>
      match t.zones with
      | [z] => pure z
      | _ => Except.error "Zone needs to be specified."
  let _zone_actual ← match t.actual.find? (fun p => p.1 = z) with
    | some p => pure p.2
    | none => Except.error ("Cannot retrieve actual data at zone " ++ z ++ ".")
  Except.error "AttributeError: TraceSimulator object has no attribute data"

/-- Scales every value of a frame, as `dataframe * factor` does. -/
def scaleFrame (factor : ℚ) (f : Frame) : Frame :=
  f.map fun zs => (zs.1, zs.2.map fun p => (p.1, p.2 * factor))

/-- `CarbonApi.__init__` (lines 109-120): stores `actual`/`forecast`, then for
unit `lb_per_MWh` evaluates `self.actual * 0.45359237` and
`self.forecast * 0.45359237` — the latter is a Python `TypeError` when
`forecast` is `None`; any unit other than the two supported ones raises
`ValueError`. -/
def CarbonApi.init (actual : Frame) (forecast : Option Frame) (unit : String) :
    Except String TraceSimulator :=
  if unit = "lb_per_MWh" then
    match forecast with
    | some f =>
      .ok { actual := scaleFrame (45359237 / 100000000) actual,
            forecast := some (scaleFrame (45359237 / 100000000) f) }
    | none =>
      .error "TypeError: unsupported operand type for *: NoneType and float"
  else if unit ≠ "g_per_kWh" then
    .error ("Carbon intensity unit " ++ unit ++ " is not supported.")
  else
    .ok { actual := actual, forecast := forecast }

/-! ## FilePowerMeter (`src/vessim/power_meter.py`) -/

/-- Whether a list of timestamps is non-strictly increasing
(`pandas.Index.is_monotonic_increasing`). -/
def isMonoInc : List Nat → Bool
  | [] => true
  | [_] => true
  | a :: b :: rest => a ≤ b && isMonoInc (b :: rest)

/-- Whether a list of timestamps is non-strictly decreasing
(`pandas.Index.is_monotonic_decreasing`). -/
def isMonoDec : List Nat → Bool
  | [] => true
  | [_] => true
  | a :: b :: rest => b ≤ a && isMonoDec (b :: rest)

/-- Whether all timestamps are distinct (`pandas.Index.is_unique`). -/
def isUnique : List Nat → Bool
  | [] => true
  | a :: rest => !(rest.contains a) && isUnique rest

/-- `FilePowerMeter._load_data` (lines 50-75): parses rows of (time, power),
sorts by the time index, then checks
`if not data.index.is_monotonic_increasing or data.index.is_monotonic_decreasing`
(Python precedence: `(not inc) or dec`) and afterwards uniqueness. -/
def load_data (rows : List (Nat × ℚ)) : Except String (List (Nat × ℚ)) :=
  let data := List.insertionSort (fun a b : Nat × ℚ => a.1 ≤ b.1) rows
  if !(isMonoInc (data.map (·.1))) || isMonoDec (data.map (·.1)) then
    .error "The time index must be monotonic increasing or decreasing."
  else if !(isUnique (data.map (·.1))) then
    .error "The time index must be unique."
  else
    .ok data

/-- `FilePowerMeter._convert_power_to_watts` (lines 77-95). -/
def convert_power_to_watts (power : ℚ) (unit : String) : Except String ℚ :=
  if unit = "W" then .ok power
  else if unit = "kW" then .ok (power * 1000)
  else if unit = "MW" then .ok (power * 1000000)
  else .error ("Unknown unit: " ++ unit)

/-- State of a constructed `FilePowerMeter`: the loaded, time-sorted data and
the configured unit. -/
structure FilePowerMeter where
  data : List (Nat × ℚ)
  unit : String
deriving Repr, DecidableEq

/-- `FilePowerMeter.measure` (lines 97-112): `self.data.index.asof(now)`,
`ValueError` when that is `NaN` (no data at or before `now`), otherwise the
row's power converted to watts. -/
def FilePowerMeter.measure (fm : FilePowerMeter) (now : Nat) : Except String ℚ :=
  match seriesAsof fm.data now with
  | none => .error ("No data available before or at " ++ toString now)
  | some row => convert_power_to_watts row.2 fm.unit

/-! ## Vessim API server (`src/vessim/sil/api_server.py`) -/

/-- Redis `hset`: set a field of a hash, overwriting an existing field and
appending a new one otherwise. -/
def hset {α : Type} (l : List (String × α)) (k : String) (v : α) : List (String × α) :=
  if l.any (fun p => p.1 = k) then
    l.map fun p => if p.1 = k then (k, v) else p
  else
    l ++ [(k, v)]

/-- The allowed power modes (`api_server.py` line 199 and
`virtual_energy_system.py` line 231). -/
def power_modes : List String := ["power-saving", "normal", "high performance"]

/-- The three per-key event logs kept by the API server in Redis: hashes from
timestamp string to payload. -/
structure VessimApiState where
  battery_min_soc_log : List (String × ℚ)
  battery_grid_charge_log : List (String × ℚ)
  power_mode_log : List (String × List (String × String))
deriving Repr, DecidableEq

/-- An HTTP error response: status code and detail. -/
abbrev HttpErr := Nat × String

/-- `put_nodes` (`api_server.py` lines 197-213): rejects an unknown power
mode with status 400 before touching the log; otherwise appends one
timestamped entry `{item_id: power_mode}` to `power_mode_log` and returns
the accepted payload.  The pair holds the (possibly updated) server state
and the HTTP outcome; an HTTP error leaves the state exactly as it was. -/
def VessimApiState.put_nodes (st : VessimApiState) (item_id : String)
    (power_mode : String) (timestamp : String) :
    VessimApiState × Except HttpErr String :=
  if power_mode ∉ power_modes then
    (st, .error (400, power_mode ++ " is not a valid power mode."))
  else
    ({ st with power_mode_log := hset st.power_mode_log timestamp [(item_id, power_mode)] },
     .ok power_mode)

/-- Python dict assignment `d[k] = v` for `Nat` keys. -/
def dictSet {α : Type} (l : List (Nat × α)) (k : Nat) (v : α) : List (Nat × α) :=
  if l.any (fun p => p.1 = k) then
    l.map fun p => if p.1 = k then (k, v) else p
  else
    l ++ [(k, v)]

/-- `put_nodes` of the legacy VES API (`virtual_energy_system.py` lines
228-237): 422 when the `power_mode` key is missing, 400 when the value is not
an allowed power mode — both raised before `self.nodes_power_mode[item_id]`
is assigned — otherwise the node's mode is stored and the payload returned. -/
def VirtualEnergySystemModel.put_nodes (m : VirtualEnergySystemModel)
    (data : List (String × String)) (item_id : Nat) :
    VirtualEnergySystemModel × Except HttpErr (List (String × String)) :=
  match data.find? (fun p => p.1 = "power_mode") with
  | none => (m, .error (422, "Missing keys: power_mode"))
  | some kv =>
    if kv.2 ∉ power_modes then
      (m, .error (400, kv.2 ++ " is not a valid power mode."))
    else
      ({ m with nodes_power_mode := dictSet m.nodes_power_mode item_id kv.2 }, .ok data)

/-! ## SiL collector (`src/vessim/cosim/sil_interface.py`) -/

/-- Modelled from the spec: `vessim/sil/node.py` is not under `src/`; a
compute node carries an integer id and a power mode (spec 3, ComputeNode). -/
structure Node where
  id : Nat
  power_mode : String
deriving Repr, DecidableEq

/-- The mutable state of `_SilInterfaceModel` touched by `_api_collector`. -/
structure SilInterfaceModel where
  battery : SimpleBatteryModel
  policy : DefaultStoragePolicy
  nodes : List Node
  updated_nodes : List Node
deriving Repr, DecidableEq

/-- The payload of `GET /sim/collect-set` (`api_server.py` lines 136-154):
the three drained per-key event logs.  The keys are the timestamps assigned
at write time (`datetime.now().isoformat()`); since lexicographic comparison
of those ISO strings coincides with chronological order, the timestamps are
embedded as naturals ordered the same way. -/
structure CollectSet where
  battery_min_soc : List (Nat × ℚ)
  battery_grid_charge : List (Nat × ℚ)
  nodes_power_mode : List (Nat × List (String × String))
deriving Repr, DecidableEq

/-- `max(d.keys())` over a non-empty dict keyed by timestamps, together with
the stored value. -/
def latestEntry {α : Type} (l : List (Nat × α)) : Option (Nat × α) :=
  l.foldl
    (fun acc p =>
      match acc with
      | none => some p
      | some q => if q.1 < p.1 then some p else some q)
    none

/-- Python `int(s)` (`int(k)` at line 125): the number denoted by a string of
decimal digits, `ValueError` on a non-numeric string. -/
def pyInt (s : String) : Except String Nat :=
  if s.data ≠ [] ∧ s.data.all (·.isDigit) then
    .ok (s.data.foldl (fun n c => n * 10 + (c.toNat - ( '0'.toNat))) 0)
  else
    .error ("ValueError: invalid literal for int with base 10: " ++ s)

/-- The Python membership test `n in s` with `n : int` and `s : str`
(line 128: `node.id in nodes_power_mode[node.id]`): always a `TypeError`,
since `in` on a string requires a string as left operand. -/
def pyIntInStr (_n : Nat) (_s : String) : Except String Bool :=
  .error "TypeError: in <string> requires string as left operand, not int"

/-- The node loop of `_api_collector` (lines 127-130): for each node, look up
`nodes_power_mode[node.id]` (a `KeyError` when absent), test
`node.id in nodes_power_mode[node.id]`, and on success store the mode and
record the node in `updated_nodes`. -/
def collectorNodes :
    List Node → List Node → List (Nat × String) → Except String (List Node × List Node)
  | [], updated, _ => .ok ([], updated)
  | node :: rest, updated, npm => do
    let v ← match npm.find? (fun p => p.1 = node.id) with
      | some p => pure p.2
      | none => Except.error ("KeyError: " ++ toString node.id)
    let b ← pyIntInStr node.id v
    if b then
      let node' := { node with power_mode := v }
      let r ← collectorNodes rest (updated ++ [node']) npm
      pure (node' :: r.1, r.2)
    else
      let r ← collectorNodes rest updated npm
      pure (node :: r.1, r.2)

/-- `_SilInterfaceModel._api_collector` (lines 106-130): for each non-empty
log apply the entry with the maximal timestamp key; `battery_min_soc` sets
`battery.min_soc`, `battery_grid_charge` sets `policy.grid_power`, and
`nodes_power_mode` converts the newest entry's keys with `int(...)` and runs
the node loop. -/
def api_collector (m : SilInterfaceModel) (collection : CollectSet) :
    Except String SilInterfaceModel := do
  let m1 :=
    match latestEntry collection.battery_min_soc with
    | some p => { m with battery := { m.battery with min_soc := p.2 } }
    | none => m
  let m2 :=
    match latestEntry collection.battery_grid_charge with
    | some p => { m1 with policy := { m1.policy with grid_power := p.2 } }
    | none => m1
  match latestEntry collection.nodes_power_mode with
  | none => pure m2
  | some p => do
    let npm ← p.2.mapM fun kv => do
      let k ← pyInt kv.1
      pure (k, kv.2)
    let r ← collectorNodes m2.nodes m2.updated_nodes npm
    pure { m2 with nodes := r.1, updated_nodes := r.2 }

/-! ## Theorems -/

/-- C9: after every call to `CarbonAgent.step`, `ci` equals the absolute
value of `intensity_input * carbon_conversion_factor`, hence is never
negative, even for a negative raw intensity input. -/
theorem carbon_agent_step_ci_abs_nonneg (a : CarbonAgent) :
    (a.step).ci = |a.intensity_input * a.carbon_conversion_factor| ∧ 0 ≤ (a.step).ci := by
  refine ⟨rfl, ?_⟩
  exact abs_nonneg _

/-- C7: the carbon-aware controller rule at a time of day of 12:00 (43200
seconds), battery SOC 0.9 and carbon intensity 150 returns
`battery_min_soc = 0.6`, `grid_power = 0` and power mode
"high performance" for every node name of its input list. -/
theorem cacu_scenario_noon_high_soc (time : Int) (node_names : List String)
    (h : time % (3600 * 24) = 43200) :
    (cacu_scenario time (9 / 10) 150 node_names).battery_min_soc = 6 / 10 ∧
    (cacu_scenario time (9 / 10) 150 node_names).grid_power = 0 ∧
    (cacu_scenario time (9 / 10) 150 node_names).nodes_power_mode =
      node_names.map (fun n => (n, "high performance")) := by
  unfold cacu_scenario
  rw [h]
  norm_num

/-- C7 witness: the rule evaluated at noon of day zero with two nodes. -/
theorem cacu_scenario_noon_high_soc_witness :
    (43200 : Int) % (3600 * 24) = 43200 ∧
    (cacu_scenario 43200 (9 / 10) 150 ["gcp", "raspi"]).battery_min_soc = 6 / 10 ∧
    (cacu_scenario 43200 (9 / 10) 150 ["gcp", "raspi"]).grid_power = 0 ∧
    (cacu_scenario 43200 (9 / 10) 150 ["gcp", "raspi"]).nodes_power_mode =
      [("gcp", "high performance"), ("raspi", "high performance")] := by
  refine ⟨by decide, ?_⟩
  simpa using cacu_scenario_noon_high_soc 43200 ["gcp", "raspi"] (by decide)

/-- C2: for every battery state with
`min_soc*capacity ≤ charge_level ≤ capacity`, every power and every
(nonnegative) duration, `update` clamps the post-update charge level into
`[min_soc*capacity, capacity]` and returns an excess with the same sign as
the power, or zero; and the end-to-end scenario
`SimpleBattery(capacity=100, charge_level=60, min_soc=0.5)`,
`update(power=-50, duration=1)` yields charge level 50 and excess -40. -/
theorem storage_update_clamps_and_excess_sign :
    (∀ (b : SimpleBatteryModel) (power duration : ℚ),
      b.min_soc * b.capacity ≤ b.charge_level → b.charge_level ≤ b.capacity →
      0 ≤ duration →
      (b.min_soc * b.capacity ≤ (b.update power duration).2.charge_level ∧
        (b.update power duration).2.charge_level ≤ b.capacity ∧
        (0 ≤ power → 0 ≤ (b.update power duration).1) ∧
        (power ≤ 0 → (b.update power duration).1 ≤ 0))) ∧
    (SimpleBatteryModel.update
        { capacity := 100, charge_level := 60, min_soc := 1 / 2, step_size := 1 } (-50) 1 =
      (-40, { capacity := 100, charge_level := 50, min_soc := 1 / 2, step_size := 1 })) := by
  constructor
  · intro b power duration hlo hhi hd
    have hcap : b.min_soc * b.capacity ≤ b.capacity := hlo.trans hhi
    refine ⟨le_max_left _ _, max_le hcap (min_le_right _ _), ?_, ?_⟩
    · intro hp
      have hdelta : 0 ≤ power * duration := mul_nonneg hp hd
      have h1 : max (b.min_soc * b.capacity)
          (min (b.charge_level + power * duration) b.capacity)
            ≤ b.charge_level + power * duration :=
        max_le (hlo.trans (by linarith)) (min_le_left _ _)
      simp only [SimpleBatteryModel.update]
      linarith
    · intro hp
      have hdelta : power * duration ≤ 0 := mul_nonpos_of_nonpos_of_nonneg hp hd
      have hmin : min (b.charge_level + power * duration) b.capacity
          = b.charge_level + power * duration :=
        min_eq_left (by linarith)
      have h1 : b.charge_level + power * duration ≤ max (b.min_soc * b.capacity)
          (min (b.charge_level + power * duration) b.capacity) := by
        rw [hmin]
        exact le_max_right _ _
      simp only [SimpleBatteryModel.update]
      linarith
  · norm_num [SimpleBatteryModel.update, min_def, max_def]

/-- C2 witness: the general clamp statement applied to the scenario battery
with a requested discharge of 50 over one time unit. -/
theorem storage_update_clamps_and_excess_sign_witness :
    ((1 : ℚ) / 2 * 100 ≤ 60 ∧ (60 : ℚ) ≤ 100 ∧ (0 : ℚ) ≤ 1) ∧
    ((1 : ℚ) / 2 * 100 ≤
        (SimpleBatteryModel.update
          { capacity := 100, charge_level := 60, min_soc := 1 / 2, step_size := 1 }
          (-50) 1).2.charge_level ∧
      (SimpleBatteryModel.update
          { capacity := 100, charge_level := 60, min_soc := 1 / 2, step_size := 1 }
          (-50) 1).2.charge_level ≤ 100 ∧
      ((0 : ℚ) ≤ -50 →
        0 ≤ (SimpleBatteryModel.update
          { capacity := 100, charge_level := 60, min_soc := 1 / 2, step_size := 1 }
          (-50) 1).1) ∧
      ((-50 : ℚ) ≤ 0 →
        (SimpleBatteryModel.update
          { capacity := 100, charge_level := 60, min_soc := 1 / 2, step_size := 1 }
          (-50) 1).1 ≤ 0)) :=
  ⟨⟨by norm_num, by norm_num, by norm_num⟩,
    storage_update_clamps_and_excess_sign.1
      { capacity := 100, charge_level := 60, min_soc := 1 / 2, step_size := 1 }
      (-50) 1 (by norm_num) (by norm_num) (by norm_num)⟩

/-- A concrete VES state: a consumption of 10, no solar power and a battery
(capacity 100, charge level 60, min_soc 0.5) that can comfortably supply the
whole deficit. -/
def vesDeficitExample : VirtualEnergySystemModel :=
  { battery := { capacity := 100, charge_level := 60, min_soc := 1 / 2, step_size := 1 },
    battery_grid_charge := 0,
    nodes_power_mode := [],
    consumption := 10,
    solar := 0,
    ci := 0,
    grid_power := 0 }

/-- C1: the energy-system step does not conserve energy.  On a deficit of 10
the battery discharges the full 10 (charge level drops from 60 to 50, so the
applied battery power is -10), yet the step also sets `grid_power = 10`: the
aggregate power delta differs from the applied battery power plus the grid
power under every sign reading of the two quantities. -/
theorem ves_step_violates_energy_conservation :
    (vesDeficitExample.step).grid_power = 10 ∧
    (vesDeficitExample.step).battery.charge_level = 50 ∧
    vesDeficitExample.consumption - vesDeficitExample.solar ≠
      ((vesDeficitExample.step).battery.charge_level -
        vesDeficitExample.battery.charge_level) + (vesDeficitExample.step).grid_power ∧
    vesDeficitExample.consumption - vesDeficitExample.solar ≠
      -((vesDeficitExample.step).battery.charge_level -
        vesDeficitExample.battery.charge_level) + (vesDeficitExample.step).grid_power ∧
    vesDeficitExample.solar - vesDeficitExample.consumption ≠
      ((vesDeficitExample.step).battery.charge_level -
        vesDeficitExample.battery.charge_level) + (vesDeficitExample.step).grid_power ∧
    vesDeficitExample.solar - vesDeficitExample.consumption ≠
      -((vesDeficitExample.step).battery.charge_level -
        vesDeficitExample.battery.charge_level) + (vesDeficitExample.step).grid_power := by
  norm_num [vesDeficitExample, VirtualEnergySystemModel.step, SimpleBatteryModel.step,
    SimpleBatteryModel.update, min_def, max_def]

/-- A concrete SiL interface state with a single compute node of id 1. -/
def silExample : SilInterfaceModel :=
  { battery := { capacity := 100, charge_level := 60, min_soc := 6 / 10, step_size := 1 },
    policy := { grid_power := 0 },
    nodes := [{ id := 1, power_mode := "normal" }],
    updated_nodes := [] }

/-- C3: the collector drain applies the chronologically latest pending
`battery_min_soc` entry independently of arrival order and leaves parameters
unchanged when all logs are empty — but for the `nodes_power_mode` key it
never applies anything: with one pending entry for the one existing node the
loop evaluates `node.id in nodes_power_mode[node.id]`, an `int`-in-`str`
membership test, and raises `TypeError` instead of setting the node's power
mode. -/
theorem api_collector_latest_and_nodes_type_error :
    api_collector silExample
        { battery_min_soc := [], battery_grid_charge := [], nodes_power_mode := [] } =
      .ok silExample ∧
    api_collector silExample
        { battery_min_soc := [(1, 3 / 10), (2, 7 / 10)],
          battery_grid_charge := [], nodes_power_mode := [] } =
      .ok { silExample with battery := { silExample.battery with min_soc := 7 / 10 } } ∧
    api_collector silExample
        { battery_min_soc := [(2, 7 / 10), (1, 3 / 10)],
          battery_grid_charge := [], nodes_power_mode := [] } =
      .ok { silExample with battery := { silExample.battery with min_soc := 7 / 10 } } ∧
    api_collector silExample
        { battery_min_soc := [], battery_grid_charge := [],
          nodes_power_mode := [(1, [("1", "high performance")])] } =
      .error "TypeError: in <string> requires string as left operand, not int" := by
  exact ⟨rfl, rfl, rfl, rfl⟩

/-- A concrete trace with data for zone "DE" at timestamps 0 and 10. -/
def traceExample : TraceSimulator :=
  { actual := [("DE", [(0, 100), (10, 110)])], forecast := none }

/-- C4: `FilePowerMeter.measure` behaves as claimed — it returns the last
value at or before the queried timestamp and raises `ValueError` when none
exists — but `TraceSimulator.actual_at` does not: even with backing data at
or before the queried timestamp it raises `AttributeError` (line 67 reads
`self.data`, an attribute `__init__` never sets), both with an explicit zone
and with the defaulted single zone, instead of returning the last value. -/
theorem actual_at_attribute_error_measure_ok :
    traceExample.actual_at 5 (some "DE") =
      .error "AttributeError: TraceSimulator object has no attribute data" ∧
    traceExample.actual_at 5 none =
      .error "AttributeError: TraceSimulator object has no attribute data" ∧
    FilePowerMeter.measure { data := [(0, 100), (10, 110)], unit := "W" } 5 = .ok 100 ∧
    FilePowerMeter.measure { data := [(0, 100), (10, 110)], unit := "W" } 10 = .ok 110 ∧
    FilePowerMeter.measure { data := [(10, 110)], unit := "W" } 5 =
      .error "No data available before or at 5" := by
  exact ⟨rfl, rfl, rfl, rfl, rfl⟩

/-- Setting a fresh field of a Redis hash appends one entry. -/
lemma hset_append {α : Type} (l : List (String × α)) (k : String) (v : α)
    (h : k ∉ l.map (·.1)) : hset l k v = l ++ [(k, v)] := by
  unfold hset
  rw [if_neg]
  simp only [List.any_eq_true, decide_eq_true_eq, not_exists]
  intro p hp
  exact h (List.mem_map.2 ⟨p, hp.1, hp.2⟩)

/-- C5: a PUT to the nodes endpoint with a power mode outside
power-saving/normal/high performance is rejected with status 400 and the
server state is left untouched (no event enters the log); a PUT with an
allowed power mode appends exactly one timestamped `nodes_power_mode` event
whose payload is keyed by the node id, touches no other log, and returns the
accepted payload.  The legacy VES endpoint likewise rejects an invalid mode
with 400 before `nodes_power_mode` is modified. -/
theorem put_nodes_validation :
    (∀ (st : VessimApiState) (item_id power_mode timestamp : String),
      power_mode ∉ power_modes →
      (st.put_nodes item_id power_mode timestamp).1 = st ∧
      (st.put_nodes item_id power_mode timestamp).2 =
        .error (400, power_mode ++ " is not a valid power mode.")) ∧
    (∀ (st : VessimApiState) (item_id power_mode timestamp : String),
      power_mode ∈ power_modes →
      timestamp ∉ st.power_mode_log.map (·.1) →
      (st.put_nodes item_id power_mode timestamp).1.power_mode_log =
        st.power_mode_log ++ [(timestamp, [(item_id, power_mode)])] ∧
      (st.put_nodes item_id power_mode timestamp).1.battery_min_soc_log =
        st.battery_min_soc_log ∧
      (st.put_nodes item_id power_mode timestamp).1.battery_grid_charge_log =
        st.battery_grid_charge_log ∧
      (st.put_nodes item_id power_mode timestamp).2 = .ok power_mode) ∧
    (∀ (m : VirtualEnergySystemModel) (data : List (String × String)) (item_id : Nat)
      (kv : String × String),
      data.find? (fun p => p.1 = "power_mode") = some kv →
      kv.2 ∉ power_modes →
      (m.put_nodes data item_id).1 = m ∧
      (m.put_nodes data item_id).2 = .error (400, kv.2 ++ " is not a valid power mode.")) := by
  refine ⟨?_, ?_, ?_⟩
  · intro st item_id power_mode timestamp h
    unfold VessimApiState.put_nodes
    rw [if_pos h]
    exact ⟨rfl, rfl⟩
  · intro st item_id power_mode timestamp h hts
    unfold VessimApiState.put_nodes
    rw [if_neg (not_not_intro h)]
    exact ⟨hset_append _ _ _ hts, rfl, rfl, rfl⟩
  · intro m data item_id kv hfind h
    unfold VirtualEnergySystemModel.put_nodes
    simp only [hfind]
    rw [if_pos h]
    exact ⟨rfl, rfl⟩

/-- C5 witness: `PUT /nodes/gcp` with power mode "ultra" is rejected with
status 400 leaving the (empty) logs untouched, while power mode "normal" is
accepted and logged; the legacy endpoint also rejects "ultra". -/
theorem put_nodes_validation_witness :
    ("ultra" ∉ power_modes ∧ "normal" ∈ power_modes ∧
      "t0" ∉ (List.map (·.1) ([] : List (String × List (String × String)))) ∧
      List.find? (fun p => p.1 = "power_mode") [("power_mode", "ultra")] =
        some ("power_mode", "ultra")) ∧
    (VessimApiState.put_nodes ⟨[], [], []⟩ "gcp" "ultra" "t0").1 = ⟨[], [], []⟩ ∧
    (VessimApiState.put_nodes ⟨[], [], []⟩ "gcp" "ultra" "t0").2 =
      .error (400, "ultra" ++ " is not a valid power mode.") ∧
    (VessimApiState.put_nodes ⟨[], [], []⟩ "gcp" "normal" "t0").1.power_mode_log =
      [] ++ [("t0", [("gcp", "normal")])] ∧
    (VessimApiState.put_nodes ⟨[], [], []⟩ "gcp" "normal" "t0").2 = .ok "normal" ∧
    (VirtualEnergySystemModel.put_nodes vesDeficitExample [("power_mode", "ultra")] 1).1 =
      vesDeficitExample ∧
    (VirtualEnergySystemModel.put_nodes vesDeficitExample [("power_mode", "ultra")] 1).2 =
      .error (400, "ultra" ++ " is not a valid power mode.") := by
  have h1 := put_nodes_validation.1 ⟨[], [], []⟩ "gcp" "ultra" "t0" (by decide)
  have h2 := put_nodes_validation.2.1 ⟨[], [], []⟩ "gcp" "normal" "t0" (by decide) (by decide)
  have h3 := put_nodes_validation.2.2 vesDeficitExample [("power_mode", "ultra")] 1
    ("power_mode", "ultra") rfl (by decide)
  exact ⟨⟨by decide, by decide, by decide, rfl⟩,
    h1.1, h1.2, h2.1, h2.2.2.2, h3.1, h3.2⟩

/-- C8 counterexample: constructing `CarbonApi` with the supported unit
"lb_per_MWh" but no forecast data raises an error after all — line 118
evaluates `self.forecast * 0.45359237` with `self.forecast = None`, a Python
`TypeError` — refuting "for every supported unit no error is raised". -/
theorem carbon_api_lb_per_mwh_none_forecast_errors :
    CarbonApi.init [("DE", [(0, 418)])] none "lb_per_MWh" =
      .error "TypeError: unsupported operand type for *: NoneType and float" := rfl

/-- C8 (amended): constructing `CarbonAgent` or `CarbonApi` with a unit other
than g_per_kWh or lb_per_MWh, or converting a power with a unit other than
W, kW or MW, raises a `ValueError` whose message names the offending unit;
with a supported unit no error is raised — except `CarbonApi` with unit
lb_per_MWh and no forecast data, which raises a `TypeError` while scaling
the absent forecast. -/
theorem unit_validation :
    (∀ unit : String, unit ≠ "g_per_kWh" → unit ≠ "lb_per_MWh" →
      CarbonAgent.init unit = .error (unit ++ " is not supported by vessim")) ∧
    (CarbonAgent.init "g_per_kWh" =
        .ok { carbon_conversion_factor := 1, ci := 0, intensity_input := 0 } ∧
      CarbonAgent.init "lb_per_MWh" =
        .ok { carbon_conversion_factor := 45359237 / 100000000, ci := 0,
              intensity_input := 0 }) ∧
    (∀ (actual : Frame) (forecast : Option Frame) (unit : String),
      unit ≠ "g_per_kWh" → unit ≠ "lb_per_MWh" →
      CarbonApi.init actual forecast unit =
        .error ("Carbon intensity unit " ++ unit ++ " is not supported.")) ∧
    (∀ (actual : Frame) (forecast : Option Frame),
      CarbonApi.init actual forecast "g_per_kWh" = .ok { actual := actual, forecast := forecast }) ∧
    (∀ (actual f : Frame),
      CarbonApi.init actual (some f) "lb_per_MWh" =
        .ok { actual := scaleFrame (45359237 / 100000000) actual,
              forecast := some (scaleFrame (45359237 / 100000000) f) }) ∧
    (∀ (p : ℚ) (unit : String), unit ≠ "W" → unit ≠ "kW" → unit ≠ "MW" →
      convert_power_to_watts p unit = .error ("Unknown unit: " ++ unit)) ∧
    (∀ p : ℚ, convert_power_to_watts p "W" = .ok p ∧
      convert_power_to_watts p "kW" = .ok (p * 1000) ∧
      convert_power_to_watts p "MW" = .ok (p * 1000000)) := by
  refine ⟨?_, ⟨rfl, rfl⟩, ?_, ?_, ?_, ?_, ?_⟩
  · intro unit h1 h2
    unfold CarbonAgent.init
    rw [if_neg h1, if_neg h2]
  · intro actual forecast unit h1 h2
    unfold CarbonApi.init
    rw [if_neg h2, if_pos h1]
  · intro actual forecast
    unfold CarbonApi.init
    rw [if_neg (by decide : ¬("g_per_kWh" : String) = "lb_per_MWh"),
      if_neg (not_not_intro rfl)]
  · intro actual f
    unfold CarbonApi.init
    rw [if_pos rfl]
  · intro p unit h1 h2 h3
    unfold convert_power_to_watts
    rw [if_neg h1, if_neg h2, if_neg h3]
  · intro p
    exact ⟨rfl, rfl, rfl⟩

/-- C8 witness: the validation applied to the unsupported unit "foo" and to
the supported units, with forecast data present in the lb_per_MWh case. -/
theorem unit_validation_witness :
    (("foo" : String) ≠ "g_per_kWh" ∧ ("foo" : String) ≠ "lb_per_MWh" ∧
      ("foo" : String) ≠ "W" ∧ ("foo" : String) ≠ "kW" ∧ ("foo" : String) ≠ "MW") ∧
    CarbonAgent.init "foo" = .error ("foo" ++ " is not supported by vessim") ∧
    CarbonApi.init [("DE", [(0, 418)])] none "foo" =
      .error ("Carbon intensity unit " ++ "foo" ++ " is not supported.") ∧
    CarbonApi.init [("DE", [(0, 418)])] none "g_per_kWh" =
      .ok { actual := [("DE", [(0, 418)])], forecast := none } ∧
    CarbonApi.init [("DE", [(0, 100)])] (some []) "lb_per_MWh" =
      .ok { actual := scaleFrame (45359237 / 100000000) [("DE", [(0, 100)])],
            forecast := some (scaleFrame (45359237 / 100000000) []) } ∧
    convert_power_to_watts 3 "foo" = .error ("Unknown unit: " ++ "foo") ∧
    convert_power_to_watts 3 "kW" = .ok (3 * 1000) := by
  refine ⟨⟨by decide, by decide, by decide, by decide, by decide⟩, ?_, ?_, ?_, ?_, ?_, ?_⟩
  · exact unit_validation.1 "foo" (by decide) (by decide)
  · exact unit_validation.2.2.1 [("DE", [(0, 418)])] none "foo" (by decide) (by decide)
  · exact unit_validation.2.2.2.1 [("DE", [(0, 418)])] none
  · exact unit_validation.2.2.2.2.1 [("DE", [(0, 100)])] []
  · exact unit_validation.2.2.2.2.2.1 3 "foo" (by decide) (by decide) (by decide)
  · exact (unit_validation.2.2.2.2.2.2 3).2.1

/-- `isMonoInc` decides chains of `≤`. -/
lemma isMonoInc_eq_true_iff : ∀ ts : List Nat, isMonoInc ts = true ↔ ts.Chain' (· ≤ ·)
  | [] => by simp [isMonoInc]
  | [a] => by simp [isMonoInc]
  | a :: b :: rest => by
    simp [isMonoInc, isMonoInc_eq_true_iff (b :: rest), List.chain'_cons]

/-- `isUnique` decides `Nodup`. -/
lemma isUnique_eq_true_iff : ∀ ts : List Nat, isUnique ts = true ↔ ts.Nodup
  | [] => by simp [isUnique]
  | a :: rest => by
    simp [isUnique, isUnique_eq_true_iff rest, List.nodup_cons, List.contains]

/-- C10: sorting makes `is_monotonic_increasing` vacuously true, so the
misparenthesised check `if not inc or dec` rejects exactly the inputs whose
sorted time index is also non-strictly decreasing.  A file with exactly one
data row — unique and trivially ordered — is therefore rejected with the
monotonicity `ValueError`; a strictly ascending file with at least two rows
loads successfully; and duplicate timestamps always raise a `ValueError`. -/
theorem load_data_monotonic_quirk :
    (∀ (t : Nat) (v : ℚ),
      load_data [(t, v)] =
        .error "The time index must be monotonic increasing or decreasing.") ∧
    (∀ rows : List (Nat × ℚ),
      (rows.map (·.1)).Chain' (· < ·) → 2 ≤ rows.length →
      load_data rows = .ok rows) ∧
    (∀ rows : List (Nat × ℚ),
      ¬ (rows.map (·.1)).Nodup → ∃ e, load_data rows = .error e) := by
  refine ⟨fun t v => rfl, ?_, ?_⟩
  · intro rows hlt hlen
    have hpair : rows.Pairwise (fun a b => a.1 < b.1) :=
      List.pairwise_map.mp (List.chain'_iff_pairwise.mp hlt)
    have hsorted : List.Sorted (fun a b : Nat × ℚ => a.1 ≤ b.1) rows :=
      hpair.imp fun h => le_of_lt h
    have hins : List.insertionSort (fun a b : Nat × ℚ => a.1 ≤ b.1) rows = rows :=
      hsorted.insertionSort_eq
    have hinc : isMonoInc (rows.map (·.1)) = true :=
      (isMonoInc_eq_true_iff _).mpr (hlt.imp fun _ _ h => le_of_lt h)
    have huniq : isUnique (rows.map (·.1)) = true :=
      (isUnique_eq_true_iff _).mpr
        ((List.pairwise_map.mpr hpair).imp fun h => Nat.ne_of_lt h)
    have hdec : isMonoDec (rows.map (·.1)) = false := by
      obtain ⟨r1, r2, rest, rfl⟩ : ∃ r1 r2 rest, rows = r1 :: r2 :: rest := by
        cases rows with
        | nil => simp at hlen
        | cons a t =>
          cases t with
          | nil => norm_num at hlen
          | cons b r => exact ⟨a, b, r, rfl⟩
      have h12 : r1.1 < r2.1 := by
        simp only [List.map_cons, List.chain'_cons] at hlt
        exact hlt.1
      have hne : ¬ r2.1 ≤ r1.1 := not_le.mpr h12
      simp [isMonoDec, hne]
    simp only [load_data, hins, hinc, hdec, huniq]
    rfl
  · intro rows hnd
    have hperm :
        List.Perm
          ((List.insertionSort (fun a b : Nat × ℚ => a.1 ≤ b.1) rows).map (fun p => p.1))
          (rows.map (fun p => p.1)) :=
      (List.perm_insertionSort _ rows).map _
    have hnd' :
        ¬ List.Nodup
            ((List.insertionSort (fun a b : Nat × ℚ => a.1 ≤ b.1) rows).map (fun p => p.1)) :=
      fun h => hnd (hperm.nodup_iff.mp h)
    cases hb :
        (!(isMonoInc ((List.insertionSort (fun a b : Nat × ℚ => a.1 ≤ b.1) rows).map (·.1))) ||
          isMonoDec ((List.insertionSort (fun a b : Nat × ℚ => a.1 ≤ b.1) rows).map (·.1))) with
    | true =>
      exact ⟨_, by simp only [load_data]; rw [if_pos hb]⟩
    | false =>
      have hu :
          isUnique ((List.insertionSort (fun a b : Nat × ℚ => a.1 ≤ b.1) rows).map (·.1)) =
            false := by
        cases hu2 :
            isUnique ((List.insertionSort (fun a b : Nat × ℚ => a.1 ≤ b.1) rows).map (·.1)) with
        | false => rfl
        | true => exact absurd ((isUnique_eq_true_iff _).mp hu2) hnd'
      exact ⟨_, by
        simp only [load_data]
        rw [if_neg (by simp [hb]), if_pos (by simp [hu])]⟩

/-- C10 witness: the strictly ascending two-row file loads as-is, and a file
with a duplicated timestamp is rejected. -/
theorem load_data_monotonic_quirk_witness :
    (([(0, 1), (5, 2)] : List (Nat × ℚ)).map (·.1)).Chain' (· < ·) ∧
    2 ≤ ([(0, 1), (5, 2)] : List (Nat × ℚ)).length ∧
    load_data [(0, 1), (5, 2)] = .ok [(0, 1), (5, 2)] ∧
    ¬ (([(3, 1), (3, 2)] : List (Nat × ℚ)).map (·.1)).Nodup ∧
    (∃ e, load_data [(3, 1), (3, 2)] = .error e) :=
  ⟨by norm_num [List.chain'_cons], by norm_num,
    load_data_monotonic_quirk.2.1 [(0, 1), (5, 2)] (by norm_num [List.chain'_cons]) (by norm_num),
    by simp,
    load_data_monotonic_quirk.2.2 [(3, 1), (3, 2)] (by simp)⟩

end Vessim
